import Mathlib

/-!
Verification of the system-prompt-router similarity ranking.

A shallow embedding of `src/system-prompt-router/prompt_router.py`
(`class SystemPromptRouter`).  The external sentence-transformer embedder is
modelled as an abstract function `encode : String → List Int` (the claims under
study are representation-independent structural properties of the ranking, so
integer vector components stand in for floats), and the external OpenAI chat
call is modelled as an abstract fallible function.

The prompt library is a Python `dict` keyed by name; Python dicts iterate in
insertion order and assigning to an existing key keeps its position, which the
embedding mirrors with an association list and `dictInsert`.

`np.argsort(similarities)` with the default sort kind guarantees only an
ascending permutation: it gives no tie-order guarantee (its introsort is
stable only on the small sub-arrays it hands to insertion sort, and scrambles
equal keys on larger ones).  The model below is a deterministic instance of
that contract — ascending by `(score, index)`, which coincides with NumPy's
observed behavior on small arrays.  No universal theorem below asserts a tie
order: general theorems use only the ascending-by-score property shared by
every correct argsort, while the modelled tie order is relied on solely at
concrete small inputs, where it is the program's actual behavior.  The Python code then reverses (`[::-1]`) and truncates
(`[:top_k]`).
-/

namespace PromptRouter

/-- A catalog entry as stored in `self.prompt_library`:
`(name, description, system_prompt)`. -/
abbrev Entry := String × String × String

/-- The mutable state of a `SystemPromptRouter` instance:
`self.prompt_library`, `self.prompt_embeddings`, `self.prompt_names`. -/
structure RouterState where
  prompt_library : List Entry
  prompt_embeddings : Option (List (List Int))
  prompt_names : List String
deriving Repr, DecidableEq

/-- State right after `__init__`: empty library, no embeddings, no names. -/
def initState : RouterState :=
  { prompt_library := [], prompt_embeddings := none, prompt_names := [] }

/-- Dot product of two vectors (`np.dot` on 1-d slices). -/
def dot : List Int → List Int → Int
  | x :: xs, y :: ys => x * y + dot xs ys
  | _, _ => 0

/-- Python dict assignment `self.prompt_library[name] = {...}`: overwrite in
place when the key exists (keeping its insertion position), append otherwise. -/
def dictInsert (lib : List Entry) (name description system_prompt : String) :
    List Entry :=
  if lib.any (fun e => e.1 == name) then
    lib.map (fun e => if e.1 == name then (name, description, system_prompt) else e)
  else
    lib ++ [(name, description, system_prompt)]

/-- Models `SystemPromptRouter._compute_prompt_embeddings`: early-returns (leaving the
previous `prompt_embeddings` and `prompt_names` untouched) when the library is
empty; otherwise rebuilds `prompt_names` and the full embedding matrix from the
descriptions, in library iteration order. -/
def compute_prompt_embeddings (encode : String → List Int) (s : RouterState) :
    RouterState :=
  if s.prompt_library.isEmpty then s
  else
    { s with
      prompt_names := s.prompt_library.map (fun e => e.1),
      prompt_embeddings := some (s.prompt_library.map (fun e => encode e.2.1)) }

/-- Models `SystemPromptRouter.add_prompt`: dict assignment followed by a full
recomputation of the embeddings. -/
def add_prompt (encode : String → List Int) (s : RouterState)
    (name description system_prompt : String) : RouterState :=
  compute_prompt_embeddings encode
    { s with prompt_library := dictInsert s.prompt_library name description system_prompt }

/-- Models `SystemPromptRouter.load_prompt_library`: wholesale replacement of the
library followed by one recomputation. -/
def load_prompt_library (encode : String → List Int) (s : RouterState)
    (prompts : List Entry) : RouterState :=
  compute_prompt_embeddings encode { s with prompt_library := prompts }

/-- The exceptions `SystemPromptRouter` raises per query. -/
inductive RouterError where
  /-- Raised as `ValueError (No prompts loaded. Please add prompts first.)`. -/
  | noPromptsLoaded
  /-- Raised as `ValueError (No prompts available for matching)`. -/
  | noPromptsAvailable
  /-- Raised as `ValueError (Either use_best_prompt must be True or ...)`. -/
  | invalidArguments
deriving Repr, DecidableEq

/-- Models `similarities = np.dot(self.prompt_embeddings, query_embedding.T).flatten()`:
the raw (un-normalized) dot product of each cached row with the query
embedding. -/
def query_similarities (encode : String → List Int) (s : RouterState)
    (user_query : String) : List Int :=
  (s.prompt_embeddings.getD []).map (fun row => dot row (encode user_query))

/-- The ascending lexicographic (score, index) order used to model
`np.argsort`: ties in score are kept in index order. -/
def argsortLe (sims : List Int) (i j : Nat) : Prop :=
  sims.getD i 0 < sims.getD j 0 ∨ (sims.getD i 0 = sims.getD j 0 ∧ i ≤ j)

instance (sims : List Int) : DecidableRel (argsortLe sims) := fun i j => by
  unfold argsortLe
  infer_instance

/-- Models `np.argsort(similarities)`: the indices `0 .. n-1` sorted ascending
by score.  NumPy's default kind guarantees no particular order among equal
scores; this executable model fixes ties in index order, which matches NumPy's
actual behavior on small arrays (its introsort falls back to insertion sort
there).  Universal theorems below therefore use only the ascending-by-score
property; the tie order of the model is used only at concrete small inputs. -/
def argsort (sims : List Int) : List Nat :=
  List.insertionSort (argsortLe sims) (List.range sims.length)

/-- Models `top_indices = np.argsort(similarities)[::-1][:top_k]`. -/
def top_indices (encode : String → List Int) (s : RouterState)
    (user_query : String) (top_k : Nat) : List Nat :=
  ((argsort (query_similarities encode s user_query)).reverse).take top_k

/-- The result tuple built for one selected index: name from
`self.prompt_names[idx]`, score from `similarities[idx]`, payload from
`self.prompt_library[prompt_name]["system_prompt"]`.  (`getD` defaults are
unreachable for states whose names/matrix are aligned with the library.) -/
def result_at (encode : String → List Int) (s : RouterState)
    (user_query : String) (idx : Nat) : String × Int × String :=
  let prompt_name := s.prompt_names.getD idx ""
  (prompt_name,
   (query_similarities encode s user_query).getD idx 0,
   ((s.prompt_library.find? (fun e => e.1 == prompt_name)).getD ("", "", "")).2.2)

/-- Models `SystemPromptRouter.find_best_prompt`. -/
def find_best_prompt (encode : String → List Int) (s : RouterState)
    (user_query : String) (top_k : Nat) :
    Except RouterError (List (String × Int × String)) :=
  if s.prompt_library.isEmpty || s.prompt_embeddings.isNone then
    .error .noPromptsLoaded
  else
    .ok ((top_indices encode s user_query top_k).map (result_at encode s user_query))

/-- Models `SystemPromptRouter.get_prompt_details`: `self.prompt_library.get(name)`,
returning `(description, system_prompt)` or `none`. -/
def get_prompt_details (s : RouterState) (prompt_name : String) :
    Option (String × String) :=
  (s.prompt_library.find? (fun e => e.1 == prompt_name)).map (fun e => e.2)

/-- Models `SystemPromptRouter.list_prompts`: name → description mapping. -/
def list_prompts (s : RouterState) : List (String × String) :=
  s.prompt_library.map (fun e => (e.1, e.2.1))

/-- The result dictionary of `generate_response` (the constant `model_used`
and pass-through `usage` metadata fields are omitted).  In the success
dictionary the Python code has no `"error"` key and in the failure dictionary
no `"response"` key; `Option` models the absent keys. -/
structure GenResult where
  response : Option String
  error : Option String
  matched_prompt : String
  similarity_score : Option Int
  system_prompt_used : String
deriving Repr, DecidableEq

/-- Models `SystemPromptRouter.generate_response`.  Here `chat_complete system_prompt
user_query` models the external OpenAI chat-completions call; only that call
sits inside the `try`.  A `some ""` custom prompt is falsy in Python, hence the
emptiness test. -/
def generate_response (encode : String → List Int)
    (chat_complete : String → String → Except String String)
    (s : RouterState) (user_query : String)
    (use_best_prompt : Bool) (custom_system_prompt : Option String) :
    Except RouterError GenResult :=
  let chosen : Except RouterError (String × Option Int × String) :=
    if custom_system_prompt.getD "" ≠ "" then
      .ok ("custom", none, custom_system_prompt.getD "")
    else if use_best_prompt then
      match find_best_prompt encode s user_query 1 with
      | .error e => .error e
      | .ok [] => .error .noPromptsAvailable
      | .ok ((n, sc, sp) :: _) => .ok (n, some sc, sp)
    else
      .error .invalidArguments
  match chosen with
  | .error e => .error e
  | .ok (matched_prompt, similarity_score, system_prompt) =>
    match chat_complete system_prompt user_query with
    | .ok resp =>
        .ok { response := some resp, error := none, matched_prompt := matched_prompt,
              similarity_score := similarity_score, system_prompt_used := system_prompt }
    | .error e =>
        .ok { response := none, error := some e, matched_prompt := matched_prompt,
              similarity_score := similarity_score, system_prompt_used := system_prompt }

/-- The embedding cache is fresh: `prompt_names` and `prompt_embeddings` are
exactly what `compute_prompt_embeddings` produces from the current library. -/
def Computed (encode : String → List Int) (s : RouterState) : Prop :=
  s.prompt_names = s.prompt_library.map (fun e => e.1) ∧
  s.prompt_embeddings = some (s.prompt_library.map (fun e => encode e.2.1))

/-- The strict descending (score, index) order realised by this particular
deterministic argsort model after reversal.  Internal to the development: the
tie component (`j < i`) is a modelling artifact, so claim theorems only ever
use the score component, which holds for every correct argsort. -/
def strictDesc (sims : List Int) (i j : Nat) : Prop :=
  sims.getD j 0 < sims.getD i 0 ∨ (sims.getD i 0 = sims.getD j 0 ∧ j < i)

/-- A concrete embedder that maps every text to the same vector, forcing score
ties. -/
def encTie : String → List Int := fun _ => [1]

/-- A two-entry catalog loaded with the tie-forcing embedder; `"a"` is inserted
before `"b"` and both score equally against every query. -/
def sTie : RouterState :=
  load_prompt_library encTie initState [("a", "da", "pa"), ("b", "db", "pb")]

/-- The tie catalog after a bulk load with an empty mapping. -/
def sTieEmpty : RouterState := load_prompt_library encTie sTie []

/-- A concrete embedder that scores a text by its length, giving distinct
scores on the example catalog. -/
def encodeEx : String → List Int := fun t => [Int.ofNat t.length]

/-- A concrete two-entry catalog with distinct scores under `encodeEx`. -/
def sEx : RouterState :=
  load_prompt_library encodeEx initState
    [("code", "programming help", "P1"), ("cooking", "recipes", "P2")]

/-- A concrete external chat call that always fails. -/
def chatErr : String → String → Except String String := fun _ _ => .error "boom"

/-! Helper lemmas about the argsort model. -/

theorem argsortLe_total (sims : List Int) :
    ∀ i j, argsortLe sims i j ∨ argsortLe sims j i := by
  intro i j
  unfold argsortLe
  rcases lt_trichotomy (sims.getD i 0) (sims.getD j 0) with h | h | h
  · exact Or.inl (Or.inl h)
  · rcases Nat.le_total i j with hij | hij
    · exact Or.inl (Or.inr ⟨h, hij⟩)
    · exact Or.inr (Or.inr ⟨h.symm, hij⟩)
  · exact Or.inr (Or.inl h)

theorem argsortLe_trans (sims : List Int) :
    ∀ i j k, argsortLe sims i j → argsortLe sims j k → argsortLe sims i k := by
  intro i j k hij hjk
  unfold argsortLe at *
  rcases hij with h1 | ⟨h1, h1'⟩ <;> rcases hjk with h2 | ⟨h2, h2'⟩
  · exact Or.inl (h1.trans h2)
  · exact Or.inl (h2 ▸ h1)
  · exact Or.inl (h1 ▸ h2)
  · exact Or.inr ⟨h1.trans h2, h1'.trans h2'⟩

theorem argsort_pairwise (sims : List Int) :
    List.Pairwise (argsortLe sims) (argsort sims) := by
  have ht : IsTotal Nat (argsortLe sims) := ⟨argsortLe_total sims⟩
  have htr : IsTrans Nat (argsortLe sims) := ⟨argsortLe_trans sims⟩
  exact @List.sorted_insertionSort Nat (argsortLe sims) _ ht htr (List.range sims.length)

theorem argsort_nodup (sims : List Int) : (argsort sims).Nodup :=
  (List.perm_insertionSort (argsortLe sims) (List.range sims.length)).nodup_iff.mpr
    (List.nodup_range sims.length)

theorem argsort_length (sims : List Int) : (argsort sims).length = sims.length := by
  unfold argsort
  rw [List.length_insertionSort, List.length_range]

theorem mem_argsort_lt (sims : List Int) {i : Nat} (h : i ∈ argsort sims) :
    i < sims.length :=
  List.mem_range.mp ((List.mem_insertionSort (argsortLe sims)).mp h)

/-- The selected indices are pairwise in strictly descending (score, index)
order: descending scores, ties broken towards the later index. -/
theorem top_indices_pairwise (encode : String → List Int) (s : RouterState)
    (q : String) (k : Nat) :
    List.Pairwise (strictDesc (query_similarities encode s q))
      (top_indices encode s q k) := by
  have h3 := (argsort_pairwise (query_similarities encode s q)).and
    (argsort_nodup (query_similarities encode s q))
  have h4 : List.Pairwise (fun i j => strictDesc (query_similarities encode s q) j i)
      (argsort (query_similarities encode s q)) := by
    refine h3.imp ?_
    rintro i j ⟨hle, hne⟩
    rcases hle with h | ⟨he, hij⟩
    · exact Or.inl h
    · exact Or.inr ⟨he.symm, lt_of_le_of_ne hij hne⟩
  have h5 : List.Pairwise (strictDesc (query_similarities encode s q))
      (argsort (query_similarities encode s q)).reverse :=
    List.pairwise_reverse.mpr h4
  exact h5.sublist (List.take_sublist k _)

theorem getD_map_of_lt {α β : Type} (f : α → β) (l : List α) {i : Nat}
    (h : i < l.length) (d : α) (d' : β) :
    (l.map f).getD i d' = f (l.getD i d) := by
  rw [List.getD_eq_getElem?_getD, List.getD_eq_getElem?_getD, List.getElem?_map,
    List.getElem?_eq_getElem h]
  rfl

theorem compute_preserves_library (encode : String → List Int) (s : RouterState) :
    (compute_prompt_embeddings encode s).prompt_library = s.prompt_library := by
  unfold compute_prompt_embeddings
  split <;> rfl

theorem computed_compute (encode : String → List Int) (s : RouterState)
    (h : s.prompt_library ≠ []) :
    Computed encode (compute_prompt_embeddings encode s) := by
  unfold compute_prompt_embeddings Computed
  have he : s.prompt_library.isEmpty = false := by
    simpa [List.isEmpty_iff] using h
  rw [he]
  simp

theorem find_best_prompt_ok (encode : String → List Int) (s : RouterState)
    (q : String) (k : Nat) (h2 : s.prompt_library ≠ [])
    (h3 : s.prompt_embeddings.isSome) :
    find_best_prompt encode s q k =
      .ok ((top_indices encode s q k).map (result_at encode s q)) := by
  rcases Option.isSome_iff_exists.mp h3 with ⟨m, hm⟩
  simp [find_best_prompt, List.isEmpty_iff, h2, hm]

theorem dictInsert_ne_nil (lib : List Entry) (name d p : String) :
    dictInsert lib name d p ≠ [] := by
  unfold dictInsert
  split
  · rename_i h
    cases lib with
    | nil => simp at h
    | cons e t => simp
  · simp

theorem length_dictInsert_overwrite (lib : List Entry) (name d p : String)
    (h : lib.any (fun e => e.1 == name) = true) :
    (dictInsert lib name d p).length = lib.length := by
  unfold dictInsert
  rw [if_pos h]
  exact List.length_map lib _

theorem find?_overwrite (lib : List Entry) (name d p : String)
    (h : lib.any (fun e => e.1 == name) = true) :
    (lib.map (fun e => if e.1 == name then (name, d, p) else e)).find?
        (fun e => e.1 == name) = some (name, d, p) := by
  induction lib with
  | nil => simp at h
  | cons a t ih =>
    by_cases ha : (a.1 == name) = true
    · have ha' : a.1 = name := by simpa using ha
      have hmap : ((a :: t).map (fun e => if e.1 == name then (name, d, p) else e)) =
          (name, d, p) :: t.map (fun e => if e.1 == name then (name, d, p) else e) := by
        simp [ha']
      rw [hmap]
      exact @List.find?_cons_of_pos Entry (fun e => e.1 == name) (name, d, p) _ (by simp)
    · have ha' : ¬a.1 = name := by simpa using ha
      have hmap : ((a :: t).map (fun e => if e.1 == name then (name, d, p) else e)) =
          a :: t.map (fun e => if e.1 == name then (name, d, p) else e) := by
        simp [ha']
      rw [hmap]
      rw [@List.find?_cons_of_neg Entry (fun e => e.1 == name) a _ ha]
      exact ih (by simpa [List.any_cons, ha] using h)

/-! Claim theorems. -/

/-- C1 (counterexample): with a tie-forcing embedder both catalog entries score
`1` against the query, yet `find_best_prompt` returns the later-inserted entry
`"b"` before the first-inserted `"a"`, so the claim that equal-score entries
appear in original catalog insertion order (first-inserted wins) is false.
A 2-element array is within the regime where NumPy's default argsort runs
insertion sort, so `argsort([1, 1]) = [0, 1]` and the `[::-1]` reversal ranks
index 1 first: the model's tie order here is the program's actual behavior. -/
theorem find_best_prompt_tie_counterexample :
    find_best_prompt encTie sTie "q" 2 = .ok [("b", 1, "pb"), ("a", 1, "pa")] ∧
    query_similarities encTie sTie "q" = [1, 1] ∧
    (Except.ok [("b", (1 : Int), "pb"), ("a", 1, "pa")] :
        Except RouterError (List (String × Int × String))) ≠
      .ok [("a", 1, "pa"), ("b", 1, "pb")] := by
  refine ⟨rfl, rfl, ?_⟩
  intro hcontra
  injection hcontra with h
  injection h with h1 h2
  injection h1 with ha hb
  exact absurd ha (by decide)

/-- C1 (amended): for every catalog with computed embeddings, every query and
every k, the selected ranking is pairwise non-increasing in similarity score —
sorted by descending score — and `find_best_prompt` returns exactly the
entries at those indices in that order.  No order among equal scores is
asserted: the default `np.argsort` gives no tie-order guarantee, and the
counterexample shows the order is in particular not first-inserted-wins. -/
theorem find_best_prompt_sorted_desc_scores (encode : String → List Int)
    (s : RouterState) (q : String) (k : Nat)
    (h1 : Computed encode s) (h2 : s.prompt_library ≠ []) :
    List.Pairwise (fun i j => (query_similarities encode s q).getD j 0 ≤
        (query_similarities encode s q).getD i 0) (top_indices encode s q k) ∧
    find_best_prompt encode s q k =
      .ok ((top_indices encode s q k).map (result_at encode s q)) := by
  constructor
  · refine (top_indices_pairwise encode s q k).imp ?_
    intro i j hij
    rcases hij with hlt | ⟨heq, _⟩
    · exact le_of_lt hlt
    · exact le_of_eq heq.symm
  · exact find_best_prompt_ok encode s q k h2 (by rw [h1.2]; rfl)

/-- C2: for every non-empty catalog with computed embeddings, every query and
every k, the sequence of similarity scores in the result list of
`find_best_prompt` is non-increasing. -/
theorem find_best_prompt_scores_nonincreasing (encode : String → List Int)
    (s : RouterState) (q : String) (k : Nat)
    (h1 : Computed encode s) (h2 : s.prompt_library ≠ [])
    (res : List (String × Int × String))
    (hres : find_best_prompt encode s q k = .ok res) :
    List.Pairwise (fun a b => b ≤ a) (res.map (fun r => r.2.1)) := by
  have hsome : s.prompt_embeddings.isSome := by rw [h1.2]; rfl
  rw [find_best_prompt_ok encode s q k h2 hsome] at hres
  injection hres with hres
  subst hres
  rw [List.map_map]
  refine List.pairwise_map.mpr ?_
  refine (top_indices_pairwise encode s q k).imp ?_
  intro i j hij
  rcases hij with hlt | ⟨heq, _⟩
  · exact le_of_lt hlt
  · exact le_of_eq heq.symm

/-- C3: for every non-empty catalog of n entries with computed embeddings,
every query and every k ≥ 1, `find_best_prompt` returns exactly min(k, n)
results: at most k, never more than the catalog size, and all n entries when k
exceeds the catalog size. -/
theorem find_best_prompt_length_min (encode : String → List Int)
    (s : RouterState) (q : String) (k : Nat)
    (h1 : Computed encode s) (h2 : s.prompt_library ≠ []) (hk : 1 ≤ k)
    (res : List (String × Int × String))
    (hres : find_best_prompt encode s q k = .ok res) :
    res.length = min k s.prompt_library.length ∧
    res.length ≤ k ∧
    res.length ≤ s.prompt_library.length ∧
    (s.prompt_library.length ≤ k → res.length = s.prompt_library.length) := by
  have hsome : s.prompt_embeddings.isSome := by rw [h1.2]; rfl
  rw [find_best_prompt_ok encode s q k h2 hsome] at hres
  injection hres with hres
  subst hres
  have hlen : ((top_indices encode s q k).map (result_at encode s q)).length =
      min k s.prompt_library.length := by
    simp [top_indices, List.length_take, List.length_reverse, argsort_length,
      query_similarities, h1.2]
  refine ⟨hlen, ?_, ?_, ?_⟩
  · rw [hlen]
    exact min_le_left _ _
  · rw [hlen]
    exact min_le_right _ _
  · intro hle
    rw [hlen]
    exact min_eq_right hle

/-- C4: every result of `find_best_prompt` carries as its similarity score the
raw (un-normalized) dot product of the query's embedding vector with that
entry's row of the cached embedding matrix. -/
theorem find_best_prompt_score_is_dot (encode : String → List Int)
    (s : RouterState) (q : String) (k : Nat)
    (h1 : Computed encode s) (h2 : s.prompt_library ≠ [])
    (res : List (String × Int × String))
    (hres : find_best_prompt encode s q k = .ok res) :
    ∀ r ∈ res, ∃ i, i < (s.prompt_embeddings.getD []).length ∧
      r.1 = s.prompt_names.getD i "" ∧
      r.2.1 = dot ((s.prompt_embeddings.getD []).getD i []) (encode q) := by
  have hsome : s.prompt_embeddings.isSome := by rw [h1.2]; rfl
  rw [find_best_prompt_ok encode s q k h2 hsome] at hres
  injection hres with hres
  subst hres
  intro r hr
  rcases List.mem_map.mp hr with ⟨idx, hidx, rfl⟩
  have hmem : idx ∈ argsort (query_similarities encode s q) :=
    List.mem_reverse.mp ((List.take_sublist k _).subset hidx)
  have hlt : idx < (query_similarities encode s q).length := mem_argsort_lt _ hmem
  have hlt' : idx < (s.prompt_embeddings.getD []).length := by
    rw [query_similarities, List.length_map] at hlt
    exact hlt
  refine ⟨idx, hlt', rfl, ?_⟩
  show (query_similarities encode s q).getD idx 0 = _
  rw [query_similarities]
  exact getD_map_of_lt (fun row => dot row (encode q)) (s.prompt_embeddings.getD [])
    hlt' [] 0

/-- C5: `find_best_prompt` on an empty catalog fails with the
no-prompts-loaded error for every query and k, and never fails when the
catalog is non-empty and embeddings have been computed. -/
theorem find_best_prompt_empty_catalog (encode : String → List Int)
    (s : RouterState) :
    (s.prompt_library = [] →
      ∀ q k, find_best_prompt encode s q k = .error .noPromptsLoaded) ∧
    (s.prompt_library ≠ [] → s.prompt_embeddings.isSome →
      ∀ q k, ∃ res, find_best_prompt encode s q k = .ok res) := by
  constructor
  · intro h q k
    simp [find_best_prompt, h]
  · intro h2 h3 q k
    exact ⟨_, find_best_prompt_ok encode s q k h2 h3⟩


/-- C6 (counterexample): a bulk load that replaces the non-empty tie catalog
with an empty one does NOT recompute the embedding matrix: the stale matrix
keeps its 2 rows while the catalog size is 0, violating the row-count
invariant. -/
theorem load_empty_stale_matrix_counterexample :
    (sTieEmpty.prompt_embeddings.getD []).length = 2 ∧
    sTieEmpty.prompt_library.length = 0 ∧
    ¬((sTieEmpty.prompt_embeddings.getD []).length =
        sTieEmpty.prompt_library.length) := by
  refine ⟨rfl, rfl, ?_⟩
  decide

/-- C6 (amended): after `add_prompt` (which always leaves the catalog
non-empty) and after any bulk load of a non-empty mapping, the cached matrix
is recomputed in full — one row per catalog entry, row i the embedding of the
i-th description, index-aligned with the name list — but a bulk load with an
EMPTY mapping skips the recomputation and leaves the previous matrix and name
list in place. -/
theorem embeddings_recomputed_on_mutation (encode : String → List Int) :
    (∀ (s : RouterState) (name d p : String),
        Computed encode (add_prompt encode s name d p)) ∧
    (∀ (s : RouterState) (prompts : List Entry), prompts ≠ [] →
        Computed encode (load_prompt_library encode s prompts)) ∧
    (∀ (s : RouterState) (prompts : List Entry), prompts ≠ [] →
        ((load_prompt_library encode s prompts).prompt_embeddings.getD []).length =
          (load_prompt_library encode s prompts).prompt_library.length) ∧
    (∀ s : RouterState,
        (load_prompt_library encode s []).prompt_embeddings = s.prompt_embeddings ∧
        (load_prompt_library encode s []).prompt_names = s.prompt_names) := by
  refine ⟨?_, ?_, ?_, ?_⟩
  · intro s name d p
    exact computed_compute encode _ (dictInsert_ne_nil s.prompt_library name d p)
  · intro s prompts hne
    exact computed_compute encode _ hne
  · intro s prompts hne
    have hc := computed_compute encode { s with prompt_library := prompts } hne
    rw [show (load_prompt_library encode s prompts).prompt_embeddings =
        (compute_prompt_embeddings encode { s with prompt_library := prompts }).prompt_embeddings
      from rfl, hc.2]
    simp [load_prompt_library, compute_preserves_library]
  · intro s
    exact ⟨rfl, rfl⟩

/-- C7: calling `add_prompt` with a name already in the catalog silently
overwrites that entry: the catalog size is unchanged, `get_prompt_details`
returns the new description and payload, the embedding cache is recomputed
from the updated library, and any `find_best_prompt` result carrying that name
carries the new payload (never the old one). -/
theorem add_prompt_overwrite (encode : String → List Int) (s : RouterState)
    (name d1 p1 : String)
    (h : s.prompt_library.any (fun e => e.1 == name) = true) :
    (add_prompt encode s name d1 p1).prompt_library.length =
      s.prompt_library.length ∧
    get_prompt_details (add_prompt encode s name d1 p1) name = some (d1, p1) ∧
    Computed encode (add_prompt encode s name d1 p1) ∧
    (∀ q k res,
        find_best_prompt encode (add_prompt encode s name d1 p1) q k = .ok res →
        ∀ r ∈ res, r.1 = name → r.2.2 = p1) := by
  have hlib : (add_prompt encode s name d1 p1).prompt_library =
      dictInsert s.prompt_library name d1 p1 :=
    compute_preserves_library encode _
  have hne : (add_prompt encode s name d1 p1).prompt_library ≠ [] := by
    rw [hlib]
    exact dictInsert_ne_nil _ _ _ _
  have hcomp : Computed encode (add_prompt encode s name d1 p1) :=
    computed_compute encode _ (dictInsert_ne_nil s.prompt_library name d1 p1)
  have hfind : (add_prompt encode s name d1 p1).prompt_library.find?
      (fun e => e.1 == name) = some (name, d1, p1) := by
    rw [hlib]
    unfold dictInsert
    rw [if_pos h]
    exact find?_overwrite s.prompt_library name d1 p1 h
  refine ⟨?_, ?_, hcomp, ?_⟩
  · rw [hlib]
    exact length_dictInsert_overwrite s.prompt_library name d1 p1 h
  · unfold get_prompt_details
    rw [hfind]
    rfl
  · intro q k res hres r hr hname
    have hsome : (add_prompt encode s name d1 p1).prompt_embeddings.isSome := by
      rw [hcomp.2]
      rfl
    rw [find_best_prompt_ok encode _ q k hne hsome] at hres
    injection hres with hres
    subst hres
    rcases List.mem_map.mp hr with ⟨idx, hidx, rfl⟩
    have hname' : (add_prompt encode s name d1 p1).prompt_names.getD idx "" = name :=
      hname
    show (((add_prompt encode s name d1 p1).prompt_library.find?
        (fun e => e.1 == (add_prompt encode s name d1 p1).prompt_names.getD idx "")).getD
        ("", "", "")).2.2 = p1
    rw [hname', hfind]
    rfl

/-- C8: `get_prompt_details` returns `none` for every name absent from the
current catalog — it never raises — including a name that existed only in a
previously loaded catalog after `load_prompt_library` replaced the catalog
with a different entry set. -/
theorem get_prompt_details_missing_none (encode : String → List Int) :
    (∀ (s : RouterState) (name : String),
        (∀ e ∈ s.prompt_library, ¬e.1 = name) →
        get_prompt_details s name = none) ∧
    (∀ (s : RouterState) (prompts : List Entry) (name : String),
        (∀ e ∈ prompts, ¬e.1 = name) →
        get_prompt_details (load_prompt_library encode s prompts) name = none) := by
  have key : ∀ (s : RouterState) (name : String),
      (∀ e ∈ s.prompt_library, ¬e.1 = name) → get_prompt_details s name = none := by
    intro s name hno
    unfold get_prompt_details
    have hnone : s.prompt_library.find? (fun e => e.1 == name) = none :=
      List.find?_eq_none.mpr (by
        intro e he
        simpa using hno e he)
    rw [hnone]
    rfl
  refine ⟨key, ?_⟩
  intro s prompts name hno
  apply key
  intro e he
  apply hno e
  have hl : (load_prompt_library encode s prompts).prompt_library = prompts :=
    compute_preserves_library encode _
  rwa [hl] at he

/-- C9: when the external generation call fails, `generate_response` catches
the failure at the call site and returns a structured result whose `error`
field holds the failure message together with the matched prompt, similarity
score and system prompt used — on the custom-prompt path and on the best-match
path alike — instead of raising. -/
theorem generate_response_catches_failure (encode : String → List Int)
    (chat_complete : String → String → Except String String)
    (s : RouterState) (q : String) :
    (∀ (b : Bool) (sp e : String), sp ≠ "" → chat_complete sp q = .error e →
        generate_response encode chat_complete s q b (some sp) =
          .ok ⟨none, some e, "custom", none, sp⟩) ∧
    (∀ (n : String) (sc : Int) (sp : String)
        (rest : List (String × Int × String)) (e : String),
        find_best_prompt encode s q 1 = .ok ((n, sc, sp) :: rest) →
        chat_complete sp q = .error e →
        generate_response encode chat_complete s q true none =
          .ok ⟨none, some e, n, some sc, sp⟩) := by
  constructor
  · intro b sp e hsp hchat
    simp [generate_response, hsp, hchat]
  · intro n sc sp rest e hfind hchat
    simp [generate_response, hfind, hchat]

/-- C10: bulk-loading an empty mapping after a non-empty catalog leaves the
previously computed embedding matrix and name list in place (not cleared, not
recomputed), yet every subsequent `find_best_prompt` call still fails with the
no-prompts-loaded error, because the catalog-emptiness check fires before the
stale cache could be used. -/
theorem load_empty_stale_cache_still_errors (encode : String → List Int)
    (s : RouterState) (h1 : Computed encode s) (h2 : s.prompt_library ≠ []) :
    (load_prompt_library encode s []).prompt_embeddings = s.prompt_embeddings ∧
    (load_prompt_library encode s []).prompt_names = s.prompt_names ∧
    (load_prompt_library encode s []).prompt_embeddings ≠ none ∧
    ∀ q k, find_best_prompt encode (load_prompt_library encode s []) q k =
      .error .noPromptsLoaded := by
  refine ⟨rfl, rfl, ?_, ?_⟩
  · show s.prompt_embeddings ≠ none
    rw [h1.2]
    simp
  · intro q k
    rfl


/-! Concrete witnesses instantiating each hypothesis-bearing claim theorem. -/

/-- Witness for the amended C1 at the tie catalog with k = 2. -/
theorem find_best_prompt_sorted_desc_scores_witness :
    Computed encTie sTie ∧ sTie.prompt_library ≠ [] ∧
    (List.Pairwise (fun i j => (query_similarities encTie sTie "q").getD j 0 ≤
        (query_similarities encTie sTie "q").getD i 0)
        (top_indices encTie sTie "q" 2) ∧
      find_best_prompt encTie sTie "q" 2 =
        .ok ((top_indices encTie sTie "q" 2).map (result_at encTie sTie "q"))) :=
  ⟨⟨rfl, rfl⟩, by decide,
   find_best_prompt_sorted_desc_scores encTie sTie "q" 2 ⟨rfl, rfl⟩ (by decide)⟩

/-- Witness for C2 at the two-entry example catalog with k = 5. -/
theorem find_best_prompt_scores_nonincreasing_witness :
    Computed encodeEx sEx ∧ sEx.prompt_library ≠ [] ∧
    find_best_prompt encodeEx sEx "q" 5 =
      .ok [("code", 16, "P1"), ("cooking", 7, "P2")] ∧
    List.Pairwise (fun a b => b ≤ a)
      (([("code", (16 : Int), "P1"), ("cooking", 7, "P2")] :
          List (String × Int × String)).map (fun r => r.2.1)) :=
  ⟨⟨rfl, rfl⟩, by decide, rfl,
   find_best_prompt_scores_nonincreasing encodeEx sEx "q" 5 ⟨rfl, rfl⟩ (by decide)
     [("code", 16, "P1"), ("cooking", 7, "P2")] rfl⟩

/-- Witness for C3: k = 5 against the 2-entry catalog returns exactly 2
results. -/
theorem find_best_prompt_length_min_witness :
    Computed encodeEx sEx ∧ sEx.prompt_library ≠ [] ∧ 1 ≤ 5 ∧
    find_best_prompt encodeEx sEx "q" 5 =
      .ok [("code", 16, "P1"), ("cooking", 7, "P2")] ∧
    sEx.prompt_library.length ≤ 5 ∧
    ([("code", (16 : Int), "P1"), ("cooking", 7, "P2")] :
        List (String × Int × String)).length = sEx.prompt_library.length :=
  ⟨⟨rfl, rfl⟩, by decide, by decide, rfl, by decide,
   (find_best_prompt_length_min encodeEx sEx "q" 5 ⟨rfl, rfl⟩ (by decide) (by decide)
     [("code", 16, "P1"), ("cooking", 7, "P2")] rfl).2.2.2 (by decide)⟩

/-- Witness for C4 at the example catalog with k = 1. -/
theorem find_best_prompt_score_is_dot_witness :
    Computed encodeEx sEx ∧ sEx.prompt_library ≠ [] ∧
    find_best_prompt encodeEx sEx "q" 1 = .ok [("code", 16, "P1")] ∧
    (∃ i, i < (sEx.prompt_embeddings.getD []).length ∧
      (("code", (16 : Int), "P1") : String × Int × String).1 =
        sEx.prompt_names.getD i "" ∧
      (("code", (16 : Int), "P1") : String × Int × String).2.1 =
        dot ((sEx.prompt_embeddings.getD []).getD i []) (encodeEx "q")) :=
  ⟨⟨rfl, rfl⟩, by decide, rfl,
   find_best_prompt_score_is_dot encodeEx sEx "q" 1 ⟨rfl, rfl⟩ (by decide)
     [("code", 16, "P1")] rfl ("code", 16, "P1") (List.Mem.head _)⟩

/-- Witness for C5: the freshly constructed router errors, the loaded one
answers. -/
theorem find_best_prompt_empty_catalog_witness :
    initState.prompt_library = [] ∧
    find_best_prompt encodeEx initState "q" 1 = .error .noPromptsLoaded ∧
    sEx.prompt_library ≠ [] ∧ sEx.prompt_embeddings.isSome = true ∧
    ∃ res, find_best_prompt encodeEx sEx "q" 1 = .ok res :=
  ⟨rfl, (find_best_prompt_empty_catalog encodeEx initState).1 rfl "q" 1,
   by decide, rfl,
   (find_best_prompt_empty_catalog encodeEx sEx).2 (by decide) rfl "q" 1⟩

/-- Witness for the amended C6 on concrete single-entry mutations and on the
empty bulk load over the tie catalog. -/
theorem embeddings_recomputed_on_mutation_witness :
    Computed encodeEx (add_prompt encodeEx initState "a" "d" "p") ∧
    Computed encodeEx (load_prompt_library encodeEx initState [("a", "d", "p")]) ∧
    ((load_prompt_library encodeEx initState
        [("a", "d", "p")]).prompt_embeddings.getD []).length =
      (load_prompt_library encodeEx initState [("a", "d", "p")]).prompt_library.length ∧
    ((load_prompt_library encTie sTie []).prompt_embeddings = sTie.prompt_embeddings ∧
      (load_prompt_library encTie sTie []).prompt_names = sTie.prompt_names) :=
  ⟨(embeddings_recomputed_on_mutation encodeEx).1 initState "a" "d" "p",
   (embeddings_recomputed_on_mutation encodeEx).2.1 initState [("a", "d", "p")]
     (by decide),
   (embeddings_recomputed_on_mutation encodeEx).2.2.1 initState [("a", "d", "p")]
     (by decide),
   (embeddings_recomputed_on_mutation encTie).2.2.2 sTie⟩

/-- Witness for C7: overwriting the existing entry "a" of the tie catalog. -/
theorem add_prompt_overwrite_witness :
    (sTie.prompt_library.any (fun e => e.1 == "a")) = true ∧
    (add_prompt encTie sTie "a" "d2" "p2").prompt_library.length =
      sTie.prompt_library.length ∧
    get_prompt_details (add_prompt encTie sTie "a" "d2" "p2") "a" =
      some ("d2", "p2") ∧
    Computed encTie (add_prompt encTie sTie "a" "d2" "p2") ∧
    find_best_prompt encTie (add_prompt encTie sTie "a" "d2" "p2") "q" 2 =
      .ok [("b", 1, "pb"), ("a", 1, "p2")] ∧
    (("a", (1 : Int), "p2") : String × Int × String).2.2 = "p2" := by
  have H := add_prompt_overwrite encTie sTie "a" "d2" "p2" (by decide)
  exact ⟨by decide, H.1, H.2.1, H.2.2.1, rfl,
    H.2.2.2 "q" 2 [("b", 1, "pb"), ("a", 1, "p2")] rfl ("a", 1, "p2")
      (List.Mem.tail _ (List.Mem.head _)) rfl⟩

/-- Witness for C8: a never-present name and a stale name after a reload. -/
theorem get_prompt_details_missing_none_witness :
    (∀ e ∈ sEx.prompt_library, ¬e.1 = "nope") ∧
    get_prompt_details sEx "nope" = none ∧
    (∀ e ∈ ([("x", "y", "z")] : List Entry), ¬e.1 = "code") ∧
    get_prompt_details (load_prompt_library encodeEx sEx [("x", "y", "z")])
      "code" = none :=
  ⟨by decide,
   (get_prompt_details_missing_none encodeEx).1 sEx "nope" (by decide),
   by decide,
   (get_prompt_details_missing_none encodeEx).2 sEx [("x", "y", "z")] "code"
     (by decide)⟩

/-- Witness for C9 with an always-failing chat call, on both paths. -/
theorem generate_response_catches_failure_witness :
    ("SYS" : String) ≠ "" ∧ chatErr "SYS" "q" = .error "boom" ∧
    generate_response encodeEx chatErr sEx "q" true (some "SYS") =
      .ok ⟨none, some "boom", "custom", none, "SYS"⟩ ∧
    find_best_prompt encodeEx sEx "q" 1 = .ok [("code", 16, "P1")] ∧
    generate_response encodeEx chatErr sEx "q" true none =
      .ok ⟨none, some "boom", "code", some 16, "P1"⟩ :=
  ⟨by decide, rfl,
   (generate_response_catches_failure encodeEx chatErr sEx "q").1 true "SYS" "boom"
     (by decide) rfl,
   rfl,
   (generate_response_catches_failure encodeEx chatErr sEx "q").2 "code" 16 "P1" []
     "boom" rfl rfl⟩

/-- Witness for C10: emptying the example catalog by bulk load. -/
theorem load_empty_stale_cache_still_errors_witness :
    Computed encodeEx sEx ∧ sEx.prompt_library ≠ [] ∧
    (load_prompt_library encodeEx sEx []).prompt_embeddings =
      sEx.prompt_embeddings ∧
    (load_prompt_library encodeEx sEx []).prompt_names = sEx.prompt_names ∧
    (load_prompt_library encodeEx sEx []).prompt_embeddings ≠ none ∧
    find_best_prompt encodeEx (load_prompt_library encodeEx sEx []) "q" 3 =
      .error .noPromptsLoaded := by
  have H := load_empty_stale_cache_still_errors encodeEx sEx ⟨rfl, rfl⟩ (by decide)
  exact ⟨⟨rfl, rfl⟩, by decide, H.1, H.2.1, H.2.2.1, H.2.2.2 "q" 3⟩


end PromptRouter
